import Mathlib

/-!
Verification of `music.py`: a single-pass script that creates a Hugging Face
Space, attaches a secret set, and uploads two generated files.

The embedding models:
* `generate_random_string` with an explicit randomness oracle (`RandOracle`)
  supplying the results of `random.choice`, `random.choices` and
  `random.shuffle`;
* the `__main__` block as a function `run` from the parsed arguments, an
  environment (deciding the result of `whoami` and whether each remote call
  raises) and the randomness oracle, to a trace of emitted events
  (API calls and printed lines) plus the process exit code.
-/

set_option maxRecDepth 16384

namespace Music

/-- Python `string.ascii_letters`: lowercase then uppercase ASCII letters. -/
def ascii_letters : List Char :=
  "abcdefghijklmnopqrstuvwxyzABCDEFGHIJKLMNOPQRSTUVWXYZ".toList

/-- Python `string.digits`. -/
def ascii_digits : List Char := "0123456789".toList

/-- `chars = string.ascii_letters + string.digits` (music.py line 28). -/
def chars : List Char := ascii_letters ++ ascii_digits

/-- The randomness consumed by one call of `generate_random_string`:
`choice_letter` is the result of `random.choice(string.ascii_letters)`,
`choices_rem` the result of `random.choices(chars, k=length-1)`, and
`shuffle` the reordering performed by `random.shuffle`. -/
structure RandOracle where
  choice_letter : Char
  choices_rem : List Char
  shuffle : List Char → List Char

/-- The contract the Python `random` module guarantees for the draws used at
requested length `length`: the mandatory letter is a letter, the remaining
draws come from `chars` and have count `length - 1`, and shuffling permutes. -/
def RandOracle.Valid (r : RandOracle) (length : Int) : Prop :=
  r.choice_letter ∈ ascii_letters ∧
  (∀ c ∈ r.choices_rem, c ∈ chars) ∧
  r.choices_rem.length = (length - 1).toNat ∧
  ∀ l, (r.shuffle l).Perm l

/-- `generate_random_string` (music.py lines 24-33): empty result for
`length < 1`; otherwise the shuffle of `length-1` alphanumeric draws plus one
mandatory letter. -/
def generate_random_string (length : Int) (r : RandOracle) : String :=
  if length < 1 then ""
  else
    let mandatory_letter := r.choice_letter
    let remaining_chars := r.choices_rem
    let full_chars := remaining_chars ++ [mandatory_letter]
    String.mk (r.shuffle full_chars)

/-- The parsed command-line arguments (music.py lines 8-22). `git_repo` and
`git_branch` have no argparse default, hence `Option String` (absent =
Python `None`); every other optional argument defaults to `""`. -/
structure Args where
  token : String
  image : String
  git_url : String
  git_repo : Option String
  git_branch : Option String
  git_token : String
  password : String
  webdav_url : String
  webdav_user : String
  webdav_pass : String
  account_id : String
  access_key_id : String
  secret_access_key : String
deriving DecidableEq

/-- Python `v or d` for an optional string `v`: `None` and `""` are falsy. -/
def pyOrOpt : Option String → String → String
  | none, d => d
  | some s, d => if s = "" then d else s

/-- Python `v or d` for a plain string `v`. -/
def pyOrStr (s d : String) : String := if s = "" then d else s

/-- `image = args.image or "ghcr.io/zxlwq/music:latest"` (music.py line 48). -/
def resolved_image (args : Args) : String :=
  pyOrStr args.image "ghcr.io/zxlwq/music:latest"

/-- `git_repo = args.git_repo or "zxlwq/music"` (music.py line 49). -/
def resolved_git_repo (args : Args) : String :=
  pyOrOpt args.git_repo "zxlwq/music"

/-- `git_branch = args.git_branch or "main"` (music.py line 50). -/
def resolved_git_branch (args : Args) : String :=
  pyOrOpt args.git_branch "main"

/-- `readme_content` (music.py lines 56-67): the f-string, including its
leading newline before the opening front-matter delimiter. -/
def readme_content (space_name : String) : String :=
  "\n---\ntitle: " ++ space_name ++
  "\nemoji: 😻\ncolorFrom: red\ncolorTo: blue\nsdk: docker\napp_port: 3000\npinned: false\n---\nCheck out the configuration reference at https://huggingface.co/docs/hub/spaces-config-reference\n"

/-- `secrets` (music.py lines 70-82): the ordered key/value list attached at
creation. -/
def the_secrets (args : Args) : List (String × String) :=
  [("GIT_REPO", resolved_git_repo args),
   ("GIT_TOKEN", args.git_token),
   ("GIT_BRANCH", resolved_git_branch args),
   ("GIT_URL", args.git_url),
   ("PASSWORD", args.password),
   ("WEBDAV_URL", args.webdav_url),
   ("WEBDAV_USER", args.webdav_user),
   ("WEBDAV_PASS", args.webdav_pass),
   ("ACCOUNT_ID", args.account_id),
   ("ACCESS_KEY_ID", args.access_key_id),
   ("SECRET_ACCESS_KEY", args.secret_access_key)]

/-- `dockerfile_content = f"FROM {image}\n"` (music.py line 98). -/
def dockerfile_content (image : String) : String := "FROM " ++ image ++ "\n"

/-- Whether a remote call returns normally or raises. -/
inductive CallOutcome where
  | ok
  | raise
deriving DecidableEq

/-- One call to the `HfApi` client, with the arguments the script passes. -/
inductive ApiCall where
  | whoami
  | create_repo (repo_id repo_type space_sdk : String)
      (space_secrets : List (String × String))
  | upload_file (repo_id path_in_repo content repo_type : String)
deriving DecidableEq

/-- An observable step of the run: a platform API call or a printed line. -/
inductive Event where
  | api (c : ApiCall)
  | printLine (s : String)
deriving DecidableEq

/-- The trace of a run and its process exit code. -/
structure RunResult where
  events : List Event
  exitCode : Nat
deriving DecidableEq

/-- The platform side of one run: the account name in the `whoami` response
(`none` = key missing) and whether each remote call raises. -/
structure Env where
  whoami_outcome : CallOutcome
  whoami_name : Option String
  create_outcome : CallOutcome
  upload1_outcome : CallOutcome
  upload2_outcome : CallOutcome
deriving DecidableEq

/-- Python truthiness test `not user_info.get("name")`: `None` or `""`. -/
def optFalsy : Option String → Bool
  | none => true
  | some s => s = ""

/-- `userid = user_info.get("name")` (music.py line 47). -/
def userid_of (env : Env) : String := env.whoami_name.getD ""

/-- `repoid = f"{userid}/{space_name}"` (music.py line 54). -/
def repoid (env : Env) (rand : RandOracle) : String :=
  userid_of env ++ "/" ++ generate_random_string 2 rand

/-- The `__main__` block (music.py lines 35-106): the emitted event trace and
exit code. An unhandled exception from a remote call truncates the trace at
that call and terminates the process with a non-zero code. -/
def run (args : Args) (env : Env) (rand : RandOracle) : RunResult :=
  if args.token = "" then
    { events := [.printLine "Token 不能为空"], exitCode := 1 }
  else
    match env.whoami_outcome with
    | .raise => { events := [.api .whoami], exitCode := 1 }
    | .ok =>
      if optFalsy env.whoami_name then
        { events := [.api .whoami, .printLine "未获取到用户名信息，程序退出。"],
          exitCode := 1 }
      else
        let rid := repoid env rand
        let evs1 := [Event.api .whoami,
          .api (.create_repo rid "space" "docker" (the_secrets args))]
        match env.create_outcome with
        | .raise => { events := evs1, exitCode := 1 }
        | .ok =>
          let evs2 := evs1 ++ [Event.api (.upload_file rid "README.md"
            (readme_content (generate_random_string 2 rand)) "space")]
          match env.upload1_outcome with
          | .raise => { events := evs2, exitCode := 1 }
          | .ok =>
            let evs3 := evs2 ++ [Event.api (.upload_file rid "Dockerfile"
              (dockerfile_content (resolved_image args)) "space")]
            match env.upload2_outcome with
            | .raise => { events := evs3, exitCode := 1 }
            | .ok =>
              { events := evs3 ++ [.printLine ("Space 创建成功: " ++ rid)],
                exitCode := 0 }

/-- The API calls of a trace, in order, prints dropped. -/
def apiTrace (res : RunResult) : List ApiCall :=
  res.events.filterMap fun e => match e with
    | .api c => some c
    | .printLine _ => none

/-- A fixed concrete randomness oracle used to witness the theorems:
mandatory letter `a`, one remaining draw `7`, identity shuffle. -/
def randW : RandOracle :=
  { choice_letter := 'a', choices_rem := ['7'], shuffle := id }

/-- A concrete oracle for requested length 0: no remaining draws. -/
def rand0 : RandOracle :=
  { choice_letter := 'a', choices_rem := [], shuffle := id }

/-- Concrete arguments used to witness the theorems. -/
def argsW : Args :=
  { token := "tok", image := "", git_url := "", git_repo := none,
    git_branch := none, git_token := "gt", password := "pw", webdav_url := "",
    webdav_user := "", webdav_pass := "", account_id := "", access_key_id := "",
    secret_access_key := "" }

/-- `argsW` with an empty access token. -/
def argsW0 : Args := { argsW with token := "" }

/-- `argsW` with an explicit image. -/
def argsW2 : Args := { argsW with image := "quay.io/acme/app:1" }

/-- A platform environment where every call succeeds and the account name is
`alice`. -/
def envW : Env :=
  { whoami_outcome := .ok, whoami_name := some "alice", create_outcome := .ok,
    upload1_outcome := .ok, upload2_outcome := .ok }

/-- `envW` except that the creation call raises. -/
def envCR : Env := { envW with create_outcome := .raise }

/-- `envW` except that the identity lookup returns no account name. -/
def envNN : Env := { envW with whoami_name := none }

/-- Helper: at any valid oracle and requested length ≥ 1, the generated
string has exactly the requested length. -/
theorem gen_length (length : Int) (r : RandOracle) (hv : r.Valid length)
    (h1 : 1 ≤ length) :
    (generate_random_string length r).length = length.toNat := by
  obtain ⟨-, -, hlen, hperm⟩ := hv
  have hnl : ¬ length < 1 := by omega
  have hp := hperm (r.choices_rem ++ [r.choice_letter])
  have hres : generate_random_string length r =
      String.mk (r.shuffle (r.choices_rem ++ [r.choice_letter])) := by
    simp [generate_random_string, hnl]
  rw [hres]
  show (r.shuffle (r.choices_rem ++ [r.choice_letter])).length = length.toNat
  rw [hp.length_eq, List.length_append, hlen]
  simp only [List.length_singleton]
  omega

/-- Helper: the 2-character slug really has two characters. -/
theorem gen_length_two (r : RandOracle) (hv : r.Valid 2) :
    (generate_random_string 2 r).length = 2 := by
  have h := gen_length 2 r hv (by norm_num)
  simpa using h

/-- Helper: with an empty token the run stops at the diagnostic. -/
theorem run_empty_token (args : Args) (env : Env) (rand : RandOracle)
    (h : args.token = "") :
    run args env rand =
      { events := [.printLine "Token 不能为空"], exitCode := 1 } := by
  simp [run, h]

/-- Helper: when `whoami` raises the trace is that single call. -/
theorem run_whoami_raise (args : Args) (env : Env) (rand : RandOracle)
    (ht : args.token ≠ "") (hw : env.whoami_outcome = .raise) :
    run args env rand = { events := [.api .whoami], exitCode := 1 } := by
  simp [run, ht, hw]

/-- Helper: a falsy account name stops the run after `whoami`. -/
theorem run_name_falsy (args : Args) (env : Env) (rand : RandOracle)
    (ht : args.token ≠ "") (hw : env.whoami_outcome = .ok)
    (hn : optFalsy env.whoami_name = true) :
    run args env rand =
      { events := [.api .whoami, .printLine "未获取到用户名信息，程序退出。"],
        exitCode := 1 } := by
  simp [run, ht, hw, hn]

/-- Helper: once the identity check passes, the run takes one of four shapes,
determined by which remote call (if any) raises first. -/
theorem run_shape (args : Args) (env : Env) (rand : RandOracle)
    (ht : args.token ≠ "") (hw : env.whoami_outcome = .ok)
    (hn : optFalsy env.whoami_name = false) :
    (env.create_outcome = .raise ∧
      run args env rand =
        { events := [.api .whoami,
            .api (.create_repo (repoid env rand) "space" "docker" (the_secrets args))],
          exitCode := 1 }) ∨
    (env.create_outcome = .ok ∧ env.upload1_outcome = .raise ∧
      run args env rand =
        { events := [.api .whoami,
            .api (.create_repo (repoid env rand) "space" "docker" (the_secrets args)),
            .api (.upload_file (repoid env rand) "README.md"
              (readme_content (generate_random_string 2 rand)) "space")],
          exitCode := 1 }) ∨
    (env.create_outcome = .ok ∧ env.upload1_outcome = .ok ∧
      env.upload2_outcome = .raise ∧
      run args env rand =
        { events := [.api .whoami,
            .api (.create_repo (repoid env rand) "space" "docker" (the_secrets args)),
            .api (.upload_file (repoid env rand) "README.md"
              (readme_content (generate_random_string 2 rand)) "space"),
            .api (.upload_file (repoid env rand) "Dockerfile"
              (dockerfile_content (resolved_image args)) "space")],
          exitCode := 1 }) ∨
    (env.create_outcome = .ok ∧ env.upload1_outcome = .ok ∧
      env.upload2_outcome = .ok ∧
      run args env rand =
        { events := [.api .whoami,
            .api (.create_repo (repoid env rand) "space" "docker" (the_secrets args)),
            .api (.upload_file (repoid env rand) "README.md"
              (readme_content (generate_random_string 2 rand)) "space"),
            .api (.upload_file (repoid env rand) "Dockerfile"
              (dockerfile_content (resolved_image args)) "space"),
            .printLine ("Space 创建成功: " ++ repoid env rand)],
          exitCode := 0 }) := by
  cases hc : env.create_outcome with
  | raise => exact Or.inl ⟨rfl, by simp [run, ht, hw, hn, hc]⟩
  | ok =>
    cases h1 : env.upload1_outcome with
    | raise => exact Or.inr (Or.inl ⟨rfl, rfl, by simp [run, ht, hw, hn, hc, h1]⟩)
    | ok =>
      cases h2 : env.upload2_outcome with
      | raise =>
        exact Or.inr (Or.inr (Or.inl ⟨rfl, rfl, rfl,
          by simp [run, ht, hw, hn, hc, h1, h2]⟩))
      | ok =>
        exact Or.inr (Or.inr (Or.inr ⟨rfl, rfl, rfl,
          by simp [run, ht, hw, hn, hc, h1, h2]⟩))

/-- Helper: any upload event in any trace is one of the two fixed uploads,
targeting the run's deployment descriptor. -/
theorem upload_content_eq (args : Args) (env : Env) (rand : RandOracle)
    (r p c t : String)
    (h : Event.api (.upload_file r p c t) ∈ (run args env rand).events) :
    (p = "README.md" ∧ r = repoid env rand ∧ t = "space" ∧
      c = readme_content (generate_random_string 2 rand)) ∨
    (p = "Dockerfile" ∧ r = repoid env rand ∧ t = "space" ∧
      c = dockerfile_content (resolved_image args)) := by
  by_cases htok : args.token = ""
  · rw [run_empty_token args env rand htok] at h
    simp at h
  · cases hw : env.whoami_outcome with
    | raise =>
      rw [run_whoami_raise args env rand htok hw] at h
      simp at h
    | ok =>
      by_cases hn : optFalsy env.whoami_name = true
      · rw [run_name_falsy args env rand htok hw hn] at h
        simp at h
      · have hn2 : optFalsy env.whoami_name = false := by simpa using hn
        rcases run_shape args env rand htok hw hn2 with
          ⟨-, hr⟩ | ⟨-, -, hr⟩ | ⟨-, -, -, hr⟩ | ⟨-, -, -, hr⟩ <;>
          rw [hr] at h <;> simp at h <;> tauto

/-- C2: on a successful run, the creation call attaches a secret set with
exactly the eleven fixed keys in order, where PASSWORD equals the supplied
password, GIT_TOKEN the supplied git-token, and every other value equals the
supplied option or its empty/fixed default (GIT_REPO default `zxlwq/music`,
GIT_BRANCH default `main`, the rest defaulting to the empty string). -/
theorem create_attaches_fixed_secrets (args : Args) (env : Env)
    (rand : RandOracle) (ht : args.token ≠ "")
    (hw : env.whoami_outcome = .ok) (hn : optFalsy env.whoami_name = false)
    (_hc : env.create_outcome = .ok) (_h1 : env.upload1_outcome = .ok)
    (_h2 : env.upload2_outcome = .ok) :
    ∃ s, Event.api (.create_repo (repoid env rand) "space" "docker" s) ∈
        (run args env rand).events ∧
      s.map Prod.fst = ["GIT_REPO", "GIT_TOKEN", "GIT_BRANCH", "GIT_URL",
        "PASSWORD", "WEBDAV_URL", "WEBDAV_USER", "WEBDAV_PASS", "ACCOUNT_ID",
        "ACCESS_KEY_ID", "SECRET_ACCESS_KEY"] ∧
      s = [("GIT_REPO", pyOrOpt args.git_repo "zxlwq/music"),
           ("GIT_TOKEN", args.git_token),
           ("GIT_BRANCH", pyOrOpt args.git_branch "main"),
           ("GIT_URL", args.git_url),
           ("PASSWORD", args.password),
           ("WEBDAV_URL", args.webdav_url),
           ("WEBDAV_USER", args.webdav_user),
           ("WEBDAV_PASS", args.webdav_pass),
           ("ACCOUNT_ID", args.account_id),
           ("ACCESS_KEY_ID", args.access_key_id),
           ("SECRET_ACCESS_KEY", args.secret_access_key)] := by
  refine ⟨the_secrets args, ?_, by simp [the_secrets], rfl⟩
  rcases run_shape args env rand ht hw hn with
    ⟨-, hr⟩ | ⟨-, -, hr⟩ | ⟨-, -, -, hr⟩ | ⟨-, -, -, hr⟩ <;> rw [hr] <;> simp

/-- Witness for C2 at the concrete fixture. -/
theorem create_attaches_fixed_secrets_witness :
    ∃ s, Event.api (.create_repo (repoid envW randW) "space" "docker" s) ∈
        (run argsW envW randW).events ∧
      s.map Prod.fst = ["GIT_REPO", "GIT_TOKEN", "GIT_BRANCH", "GIT_URL",
        "PASSWORD", "WEBDAV_URL", "WEBDAV_USER", "WEBDAV_PASS", "ACCOUNT_ID",
        "ACCESS_KEY_ID", "SECRET_ACCESS_KEY"] ∧
      s = [("GIT_REPO", pyOrOpt argsW.git_repo "zxlwq/music"),
           ("GIT_TOKEN", argsW.git_token),
           ("GIT_BRANCH", pyOrOpt argsW.git_branch "main"),
           ("GIT_URL", argsW.git_url),
           ("PASSWORD", argsW.password),
           ("WEBDAV_URL", argsW.webdav_url),
           ("WEBDAV_USER", argsW.webdav_user),
           ("WEBDAV_PASS", argsW.webdav_pass),
           ("ACCOUNT_ID", argsW.account_id),
           ("ACCESS_KEY_ID", argsW.access_key_id),
           ("SECRET_ACCESS_KEY", argsW.secret_access_key)] :=
  create_attaches_fixed_secrets argsW envW randW (by decide) rfl (by decide)
    rfl rfl rfl

/-- C3: the deployment descriptor is the account name, `/`, and a single
2-character slug; that descriptor is the target of the creation call and of
both uploads, and on full success it is printed in the final status line. -/
theorem descriptor_consistent (args : Args) (env : Env) (rand : RandOracle)
    (ht : args.token ≠ "") (hw : env.whoami_outcome = .ok)
    (hn : optFalsy env.whoami_name = false) (hc : env.create_outcome = .ok)
    (h1 : env.upload1_outcome = .ok) (h2 : env.upload2_outcome = .ok)
    (hv : rand.Valid 2) :
    ∃ slug, slug = generate_random_string 2 rand ∧ slug.length = 2 ∧
      repoid env rand = userid_of env ++ "/" ++ slug ∧
      run args env rand =
        { events := [.api .whoami,
            .api (.create_repo (repoid env rand) "space" "docker" (the_secrets args)),
            .api (.upload_file (repoid env rand) "README.md"
              (readme_content (generate_random_string 2 rand)) "space"),
            .api (.upload_file (repoid env rand) "Dockerfile"
              (dockerfile_content (resolved_image args)) "space"),
            .printLine ("Space 创建成功: " ++ repoid env rand)],
          exitCode := 0 } := by
  refine ⟨generate_random_string 2 rand, rfl, gen_length_two rand hv, rfl, ?_⟩
  rcases run_shape args env rand ht hw hn with
    ⟨hx, -⟩ | ⟨-, hx, -⟩ | ⟨-, -, hx, -⟩ | ⟨-, -, -, hr⟩
  · simp [hc] at hx
  · simp [h1] at hx
  · simp [h2] at hx
  · exact hr

/-- Witness for C3 at the concrete fixture. -/
theorem descriptor_consistent_witness :
    ∃ slug, slug = generate_random_string 2 randW ∧ slug.length = 2 ∧
      repoid envW randW = userid_of envW ++ "/" ++ slug ∧
      run argsW envW randW =
        { events := [.api .whoami,
            .api (.create_repo (repoid envW randW) "space" "docker" (the_secrets argsW)),
            .api (.upload_file (repoid envW randW) "README.md"
              (readme_content (generate_random_string 2 randW)) "space"),
            .api (.upload_file (repoid envW randW) "Dockerfile"
              (dockerfile_content (resolved_image argsW)) "space"),
            .printLine ("Space 创建成功: " ++ repoid envW randW)],
          exitCode := 0 } :=
  descriptor_consistent argsW envW randW (by decide) rfl (by decide) rfl rfl rfl
    ⟨by decide, by decide, by decide, fun l => List.Perm.refl l⟩

/-- C4: every uploaded Dockerfile is the single line `FROM <resolved image>`
with a trailing newline; with no explicit image option the resolved image is
the fixed default, so the sole line is `FROM ghcr.io/zxlwq/music:latest`. -/
theorem dockerfile_single_from_line (args : Args) (env : Env)
    (rand : RandOracle) (r c t : String)
    (h : Event.api (.upload_file r "Dockerfile" c t) ∈
      (run args env rand).events) :
    c = "FROM " ++ resolved_image args ++ "\n" ∧
    (args.image = "" → c = "FROM ghcr.io/zxlwq/music:latest\n") := by
  rcases upload_content_eq args env rand r "Dockerfile" c t h with
    ⟨hp, -⟩ | ⟨-, -, -, hcc⟩
  · exact absurd hp (by decide)
  · subst hcc
    refine ⟨rfl, fun him => ?_⟩
    have hri : resolved_image args = "ghcr.io/zxlwq/music:latest" := by
      simp [resolved_image, pyOrStr, him]
    rw [hri]
    decide

/-- Witness for C4 at the concrete fixture. -/
theorem dockerfile_single_from_line_witness :
    (Event.api (.upload_file (repoid envW randW) "Dockerfile"
        (dockerfile_content (resolved_image argsW)) "space") ∈
      (run argsW envW randW).events) ∧
    dockerfile_content (resolved_image argsW) =
      "FROM " ++ resolved_image argsW ++ "\n" ∧
    dockerfile_content (resolved_image argsW) =
      "FROM ghcr.io/zxlwq/music:latest\n" :=
  ⟨by decide,
   (dockerfile_single_from_line argsW envW randW (repoid envW randW)
     (dockerfile_content (resolved_image argsW)) "space" (by decide)).1,
   (dockerfile_single_from_line argsW envW randW (repoid envW randW)
     (dockerfile_content (resolved_image argsW)) "space" (by decide)).2 rfl⟩

/-- C5: every uploaded README.md is the fixed front-matter block whose keys
are exactly title, emoji, colorFrom, colorTo, sdk, app_port, pinned — with
title the generated 2-character slug, sdk `docker`, app_port `3000` and
pinned `false` — followed by the documentation link line. -/
theorem readme_front_matter (args : Args) (env : Env) (rand : RandOracle)
    (r c t : String)
    (h : Event.api (.upload_file r "README.md" c t) ∈
      (run args env rand).events)
    (hv : rand.Valid 2) :
    (generate_random_string 2 rand).length = 2 ∧
    c = "\n---\ntitle: " ++ generate_random_string 2 rand ++
      "\nemoji: 😻\ncolorFrom: red\ncolorTo: blue\nsdk: docker\napp_port: 3000\npinned: false\n---\nCheck out the configuration reference at https://huggingface.co/docs/hub/spaces-config-reference\n" := by
  rcases upload_content_eq args env rand r "README.md" c t h with
    ⟨-, -, -, hcc⟩ | ⟨hp, -⟩
  · exact ⟨gen_length_two rand hv, hcc⟩
  · exact absurd hp (by decide)

/-- Witness for C5 at the concrete fixture. -/
theorem readme_front_matter_witness :
    (Event.api (.upload_file (repoid envW randW) "README.md"
        (readme_content (generate_random_string 2 randW)) "space") ∈
      (run argsW envW randW).events) ∧
    (generate_random_string 2 randW).length = 2 ∧
    readme_content (generate_random_string 2 randW) =
      "\n---\ntitle: " ++ generate_random_string 2 randW ++
      "\nemoji: 😻\ncolorFrom: red\ncolorTo: blue\nsdk: docker\napp_port: 3000\npinned: false\n---\nCheck out the configuration reference at https://huggingface.co/docs/hub/spaces-config-reference\n" :=
  ⟨by decide,
   (readme_front_matter argsW envW randW (repoid envW randW)
     (readme_content (generate_random_string 2 randW)) "space" (by decide)
     ⟨by decide, by decide, by decide, fun l => List.Perm.refl l⟩).1,
   (readme_front_matter argsW envW randW (repoid envW randW)
     (readme_content (generate_random_string 2 randW)) "space" (by decide)
     ⟨by decide, by decide, by decide, fun l => List.Perm.refl l⟩).2⟩

/-- C6: with an empty access token the program prints a diagnostic and exits
non-zero before any network call: the trace holds the diagnostic line only,
and no API call at all. -/
theorem empty_token_fails_fast (args : Args) (env : Env) (rand : RandOracle)
    (h : args.token = "") :
    run args env rand =
      { events := [.printLine "Token 不能为空"], exitCode := 1 } ∧
    ∀ c, Event.api c ∉ (run args env rand).events := by
  have hr := run_empty_token args env rand h
  refine ⟨hr, ?_⟩
  rw [hr]
  intro c hc
  simp at hc

/-- Witness for C6 at the concrete fixture with an empty token. -/
theorem empty_token_fails_fast_witness :
    argsW0.token = "" ∧
    (run argsW0 envW randW =
      { events := [.printLine "Token 不能为空"], exitCode := 1 } ∧
     ∀ c, Event.api c ∉ (run argsW0 envW randW).events) :=
  ⟨rfl, empty_token_fails_fast argsW0 envW randW rfl⟩

/-- C7: if the identity lookup returns an empty or missing account name, the
program prints a diagnostic and exits non-zero, and the only API call in the
trace is the identity lookup itself — no creation and no upload. -/
theorem missing_name_aborts (args : Args) (env : Env) (rand : RandOracle)
    (ht : args.token ≠ "") (hw : env.whoami_outcome = .ok)
    (hn : optFalsy env.whoami_name = true) :
    (run args env rand).exitCode = 1 ∧
    Event.printLine "未获取到用户名信息，程序退出。" ∈ (run args env rand).events ∧
    ∀ c, Event.api c ∈ (run args env rand).events → c = ApiCall.whoami := by
  have hr := run_name_falsy args env rand ht hw hn
  rw [hr]
  refine ⟨rfl, by simp, ?_⟩
  intro c hc
  simpa using hc

/-- Witness for C7 at the concrete fixture with a missing account name. -/
theorem missing_name_aborts_witness :
    (argsW.token ≠ "" ∧ envNN.whoami_outcome = CallOutcome.ok ∧
      optFalsy envNN.whoami_name = true) ∧
    ((run argsW envNN randW).exitCode = 1 ∧
     Event.printLine "未获取到用户名信息，程序退出。" ∈ (run argsW envNN randW).events ∧
     ∀ c, Event.api c ∈ (run argsW envNN randW).events → c = ApiCall.whoami) :=
  ⟨⟨by decide, rfl, rfl⟩, missing_name_aborts argsW envNN randW (by decide) rfl rfl⟩

/-- C8: if the creation call raises, no upload call occurs; in every trace
past the identity check the API calls are a prefix of the fixed sequence
whoami, create, upload README.md, upload Dockerfile — so uploads happen only
after the creation call returned, README.md first, then Dockerfile. -/
theorem uploads_only_after_create (args : Args) (env : Env) (rand : RandOracle)
    (ht : args.token ≠ "") (hw : env.whoami_outcome = .ok)
    (hn : optFalsy env.whoami_name = false) :
    (env.create_outcome = .raise →
      ∀ r p c t, Event.api (.upload_file r p c t) ∉ (run args env rand).events) ∧
    (apiTrace (run args env rand) =
        [.whoami,
         .create_repo (repoid env rand) "space" "docker" (the_secrets args)] ∨
     apiTrace (run args env rand) =
        [.whoami,
         .create_repo (repoid env rand) "space" "docker" (the_secrets args),
         .upload_file (repoid env rand) "README.md"
           (readme_content (generate_random_string 2 rand)) "space"] ∨
     apiTrace (run args env rand) =
        [.whoami,
         .create_repo (repoid env rand) "space" "docker" (the_secrets args),
         .upload_file (repoid env rand) "README.md"
           (readme_content (generate_random_string 2 rand)) "space",
         .upload_file (repoid env rand) "Dockerfile"
           (dockerfile_content (resolved_image args)) "space"]) := by
  rcases run_shape args env rand ht hw hn with
    ⟨hcr, hr⟩ | ⟨hco, -, hr⟩ | ⟨hco, -, -, hr⟩ | ⟨hco, -, -, hr⟩
  · refine ⟨fun _ r p c t hc => ?_, Or.inl ?_⟩
    · rw [hr] at hc
      simp at hc
    · rw [hr]
      rfl
  · exact ⟨fun hcontra => absurd hcontra (by simp [hco]),
      Or.inr (Or.inl (by rw [hr]; rfl))⟩
  · exact ⟨fun hcontra => absurd hcontra (by simp [hco]),
      Or.inr (Or.inr (by rw [hr]; rfl))⟩
  · exact ⟨fun hcontra => absurd hcontra (by simp [hco]),
      Or.inr (Or.inr (by rw [hr]; rfl))⟩

/-- Witness for C8 at the concrete fixture where the creation call raises. -/
theorem uploads_only_after_create_witness :
    envCR.create_outcome = CallOutcome.raise ∧
    (∀ r p c t,
      Event.api (.upload_file r p c t) ∉ (run argsW envCR randW).events) ∧
    (apiTrace (run argsW envCR randW) =
        [.whoami,
         .create_repo (repoid envCR randW) "space" "docker" (the_secrets argsW)] ∨
     apiTrace (run argsW envCR randW) =
        [.whoami,
         .create_repo (repoid envCR randW) "space" "docker" (the_secrets argsW),
         .upload_file (repoid envCR randW) "README.md"
           (readme_content (generate_random_string 2 randW)) "space"] ∨
     apiTrace (run argsW envCR randW) =
        [.whoami,
         .create_repo (repoid envCR randW) "space" "docker" (the_secrets argsW),
         .upload_file (repoid envCR randW) "README.md"
           (readme_content (generate_random_string 2 randW)) "space",
         .upload_file (repoid envCR randW) "Dockerfile"
           (dockerfile_content (resolved_image argsW)) "space"]) :=
  ⟨rfl,
   (uploads_only_after_create argsW envCR randW (by decide) rfl rfl).1 rfl,
   (uploads_only_after_create argsW envCR randW (by decide) rfl rfl).2⟩

/-- C9: with no explicit image option the resolved image is the fixed
default `ghcr.io/zxlwq/music:latest`; with an explicit (non-empty) image
option it is exactly the supplied string. -/
theorem image_resolution (args : Args) :
    (args.image = "" → resolved_image args = "ghcr.io/zxlwq/music:latest") ∧
    (args.image ≠ "" → resolved_image args = args.image) := by
  constructor <;> intro h <;> simp [resolved_image, pyOrStr, h]

/-- Witness for C9: the default at `argsW` and pass-through at `argsW2`. -/
theorem image_resolution_witness :
    resolved_image argsW = "ghcr.io/zxlwq/music:latest" ∧
    resolved_image argsW2 = argsW2.image :=
  ⟨(image_resolution argsW).1 rfl, (image_resolution argsW2).2 (by decide)⟩

/-- C10: the text uploaded as README.md begins with a newline character
before the opening front-matter delimiter: its first byte is a newline. -/
theorem readme_starts_with_newline (args : Args) (env : Env)
    (rand : RandOracle) (r c t : String)
    (h : Event.api (.upload_file r "README.md" c t) ∈
      (run args env rand).events) :
    c.data.head? = some '\n' := by
  rcases upload_content_eq args env rand r "README.md" c t h with
    ⟨-, -, -, hcc⟩ | ⟨hp, -⟩
  · subst hcc
    simp [readme_content, String.data_append]
  · exact absurd hp (by decide)

/-- Witness for C10 at the concrete fixture. -/
theorem readme_starts_with_newline_witness :
    (Event.api (.upload_file (repoid envW randW) "README.md"
        (readme_content (generate_random_string 2 randW)) "space") ∈
      (run argsW envW randW).events) ∧
    (readme_content (generate_random_string 2 randW)).data.head? = some '\n' :=
  ⟨by decide,
   readme_starts_with_newline argsW envW randW (repoid envW randW)
     (readme_content (generate_random_string 2 randW)) "space" (by decide)⟩

/-- C1: for every requested length ≥ 1, `generate_random_string` returns a
string of exactly that length whose characters are all ASCII letters or
digits and which contains at least one letter; for length 0 or negative it
returns the empty string. -/
theorem generate_random_string_spec (length : Int) (r : RandOracle)
    (hv : r.Valid length) :
    (1 ≤ length →
      (generate_random_string length r).length = length.toNat ∧
      (∀ c ∈ (generate_random_string length r).data, c ∈ chars) ∧
      ∃ c ∈ (generate_random_string length r).data, c ∈ ascii_letters) ∧
    (length < 1 → generate_random_string length r = "") := by
  obtain ⟨hl, hrem, hlen, hperm⟩ := hv
  refine ⟨?_, ?_⟩
  · intro h1
    have hnl : ¬ length < 1 := by omega
    have hp := hperm (r.choices_rem ++ [r.choice_letter])
    have hres : generate_random_string length r =
        String.mk (r.shuffle (r.choices_rem ++ [r.choice_letter])) := by
      simp [generate_random_string, hnl]
    refine ⟨?_, ?_, ?_⟩
    · rw [hres]
      show (r.shuffle (r.choices_rem ++ [r.choice_letter])).length = length.toNat
      rw [hp.length_eq, List.length_append, hlen]
      simp only [List.length_singleton]
      omega
    · intro c hc
      rw [hres] at hc
      have hmem : c ∈ r.choices_rem ++ [r.choice_letter] := hp.mem_iff.mp hc
      rcases List.mem_append.mp hmem with h | h
      · exact hrem c h
      · have : c = r.choice_letter := by simpa using h
        subst this
        exact List.mem_append.mpr (Or.inl hl)
    · refine ⟨r.choice_letter, ?_, hl⟩
      rw [hres]
      exact hp.mem_iff.mpr (List.mem_append.mpr (Or.inr (by simp)))
  · intro h
    simp [generate_random_string, h]

/-- Witness for C1: at length 2 with the oracle `randW` the positive branch
holds, and at length 0 with the oracle `rand0` the result is empty. -/
theorem generate_random_string_spec_witness :
    (randW.Valid 2 ∧
      (generate_random_string 2 randW).length = (2 : Int).toNat ∧
      (∀ c ∈ (generate_random_string 2 randW).data, c ∈ chars) ∧
      (∃ c ∈ (generate_random_string 2 randW).data, c ∈ ascii_letters)) ∧
    (rand0.Valid 0 ∧ generate_random_string 0 rand0 = "") :=
  ⟨⟨⟨by decide, by decide, by decide, fun l => List.Perm.refl l⟩,
    (generate_random_string_spec 2 randW
      ⟨by decide, by decide, by decide, fun l => List.Perm.refl l⟩).1
      (by norm_num)⟩,
   ⟨⟨by decide, by decide, by decide, fun l => List.Perm.refl l⟩,
    (generate_random_string_spec 0 rand0
      ⟨by decide, by decide, by decide, fun l => List.Perm.refl l⟩).2
      (by norm_num)⟩⟩

end Music
